import Mathlib

/-!
Verification of the ocap-agent query classification, slot-consolidation and
retrieval-routing core: a shallow embedding of the slot normalizer, the
fact-index and relationship-index query functions, the routing decision table
with its 4-parameter fallback, the response-strategy classifier, the metadata
merge reducer, the classify (routing/retrieval) node and the thread-memory
consolidation node, together with theorems about their behaviour.
-/

namespace OCAP

/-- Model of string lowercasing over the character list. -/
def pyLower (s : String) : String := String.mk (s.data.map Char.toLower)

/-- Model of string uppercasing over the character list. -/
def pyUpper (s : String) : String := String.mk (s.data.map Char.toUpper)

/-- Model of stripping whitespace from both ends over the character list. -/
def pyStrip (s : String) : String :=
  String.mk (((s.data.dropWhile Char.isWhitespace).reverse.dropWhile
    Char.isWhitespace).reverse)

/-- Model of a length-bounded string prefix over the character list. -/
def pyTake (s : String) (n : Nat) : String := String.mk (s.data.take n)

/-- Normalization of user and LLM inputs, mirroring index-time normalization:
a missing value maps to the empty string, whitespace is trimmed, and the
literal tokens nan, none, null (case-insensitive) collapse to the empty
string. -/
def normalize_value (val : Option String) : String :=
  match val with
  | none => ""
  | some s =>
    let v := pyStrip s
    if pyLower v = "nan" ∨ pyLower v = "none" ∨ pyLower v = "null" then "" else v

/-- One extracted registry match: a (type, value) pair with a match kind and a
confidence score. -/
structure RegistryMatch where
  node_type : String := ""
  value : String := ""
  match_type : String := "partial"
  confidence : Nat := 0
deriving Repr, DecidableEq

/-- Fact-index row: the structured columns stored for one case in the
knowledge base. The bulk free-text content column is excluded from the
source of every query result and is not modeled. -/
structure Row where
  style : String := ""
  defect : String := ""
  operation : String := ""
  error : String := ""
  action : String := ""
deriving Repr, DecidableEq

/-- Retrieval of full rows matching defect, operation(s) and style from the
fact index. The defect filter is always applied; the operations filter only
when a candidate survives normalization; a missing style is filtered as the
empty string rather than omitting the filter. Results are capped at size. -/
def get_full_rows (index : List Row) (defect : String)
    (operation_candidates : List String) (style : String)
    (size : Nat := 50) : List Row :=
  let defect := normalize_value (some defect)
  let style := normalize_value (some style)
  let operation_candidates := operation_candidates.filterMap (fun op =>
    let n := normalize_value (some op)
    if n = "" then none else some n)
  (index.filter (fun r =>
    r.defect == defect &&
    (operation_candidates.isEmpty || operation_candidates.contains r.operation) &&
    (if style ≠ "" then r.style == style else r.style == ""))).take size

/-- Retrieval of full rows based only on the error column. -/
def get_rows_by_error (index : List Row) (error : String)
    (size : Nat := 50) : List Row :=
  let error := normalize_value (some error)
  (index.filter (fun r => r.error == error)).take size

/-- Retrieval of full rows matching error and defect; each filter is applied
only when its value is non-empty after normalization, and with no filters the
result is empty without issuing a query. -/
def get_rows_by_error_and_defect (index : List Row) (error defect : String)
    (size : Nat := 50) : List Row :=
  let error := normalize_value (some error)
  let defect := normalize_value (some defect)
  if error = "" ∧ defect = "" then []
  else
    (index.filter (fun r =>
      (error == "" || r.error == error) &&
      (defect == "" || r.defect == defect))).take size

/-- Retrieval of full rows matching defect, operation(s), style and error.
The defect, operations and error filters are applied only when non-empty
after normalization; the style filter is always applied, with the empty
string standing for a missing style. -/
def get_rows_with_error (index : List Row) (defect : String)
    (operation_candidates : List String) (style error : String)
    (size : Nat := 50) : List Row :=
  let defect := normalize_value (some defect)
  let style := normalize_value (some style)
  let error := normalize_value (some error)
  let operation_candidates := operation_candidates.filterMap (fun op =>
    let n := normalize_value (some op)
    if n = "" then none else some n)
  (index.filter (fun r =>
    (defect == "" || r.defect == defect) &&
    (operation_candidates.isEmpty || operation_candidates.contains r.operation) &&
    (if style ≠ "" then r.style == style else r.style == "") &&
    (error == "" || r.error == error))).take size

/-- Name plus aggregated case count inside a relationship node. -/
structure NameCount where
  name : String := ""
  count : Nat := 0
deriving Repr, DecidableEq

/-- Remedial action plus aggregated case count inside a relationship node. -/
structure ActionCount where
  action : String := ""
  count : Nat := 0
deriving Repr, DecidableEq

/-- Relationship-index document: one node per distinct value per type, with
pre-aggregated related values and top actions. -/
structure RelNode where
  node_type : String := ""
  name : String := ""
  related_operations : List NameCount := []
  related_defects : List NameCount := []
  related_errors : List NameCount := []
  related_styles : List NameCount := []
  top_actions : List ActionCount := []
  total_cases : Nat := 0
deriving Repr, DecidableEq

/-- Split of a character list on the space character, accumulating the
current token in reverse. -/
def splitSpaceAux : List Char → List Char → List String
  | [], acc => [String.mk acc.reverse]
  | c :: rest, acc =>
    if c = Char.ofNat 32 then String.mk acc.reverse :: splitSpaceAux rest []
    else splitSpaceAux rest (c :: acc)

/-- Tokenization model of the standard text analyzer backing the name.text
field: lowercase and split on whitespace. -/
def analyzeTokens (s : String) : List String :=
  (splitSpaceAux (pyLower s).data []).filter (fun t => t ≠ "")

/-- Semantics of one should-clause of the relationship search: the node type
must match exactly, and the name must match either exactly (match kind exact)
or by requiring every token of the value (match kind partial, modeling the
operator-and full-text match on name.text). -/
def nodeClauseMatches (node_type value match_type : String) (n : RelNode) : Bool :=
  n.node_type == node_type &&
  (if match_type = "exact" then n.name == value
   else (analyzeTokens value).all (fun t => (analyzeTokens n.name).contains t))

/-- One node query of the relationship search, as built from a registry
match. -/
structure NodeQuery where
  node_type : String
  value : String
  match_type : String
  confidence : Nat
deriving Repr, DecidableEq

/-- Semantics of the relationship search query: clauses with an empty node
type or value are skipped while being built, the remaining should-clauses are
combined with at-least-one-must-match, and results are capped at size. -/
def relationship_search (index : List RelNode) (node_queries : List NodeQuery)
    (size : Nat) : List RelNode :=
  let clauses := node_queries.filter (fun q => q.node_type ≠ "" && q.value ≠ "")
  (index.filter (fun n =>
    clauses.any (fun q => nodeClauseMatches q.node_type q.value q.match_type n))).take size

/-- Retrieval of relationship nodes for non-precise queries: registry matches
missing a node type or value are dropped, and with no usable matches the
result is empty without issuing a query. -/
def get_rows_non_precise (index : List RelNode)
    (registry_matches : List RegistryMatch) (size : Nat := 50) : List RelNode :=
  if registry_matches = [] then []
  else
    let node_queries := registry_matches.filterMap (fun m =>
      if m.node_type ≠ "" ∧ m.value ≠ "" then
        some { node_type := m.node_type, value := m.value,
               match_type := m.match_type, confidence := m.confidence : NodeQuery }
      else none)
    if node_queries = [] then []
    else relationship_search index node_queries size

/-- Retrieved document: either a fact-index row or a relationship node. The
two shapes flow through the same result list in the classify node. -/
inductive QueryDoc where
  | fact (r : Row)
  | rel (n : RelNode)
deriving Repr, DecidableEq

/-- Defect field of a retrieved document; a relationship node carries no
defect key, which reads as the empty (missing) value. -/
def QueryDoc.getDefect : QueryDoc → String
  | .fact r => r.defect
  | .rel _ => ""

/-- Operation field of a retrieved document (missing on relationship
nodes). -/
def QueryDoc.getOperation : QueryDoc → String
  | .fact r => r.operation
  | .rel _ => ""

/-- Style field of a retrieved document (missing on relationship nodes). -/
def QueryDoc.getStyle : QueryDoc → String
  | .fact r => r.style
  | .rel _ => ""

/-- Error field of a retrieved document (missing on relationship nodes). -/
def QueryDoc.getError : QueryDoc → String
  | .fact r => r.error
  | .rel _ => ""

/-- Action field of a retrieved document (missing on relationship nodes). -/
def QueryDoc.getAction : QueryDoc → String
  | .fact r => r.action
  | .rel _ => ""

/-- Relationship node underlying a retrieved document, when it is one. -/
def QueryDoc.asRel : QueryDoc → Option RelNode
  | .rel n => some n
  | .fact _ => none

/-- Distinct values found in result rows for each node type, in first-seen
order. -/
structure UniqueValues where
  defect : List String := []
  operation : List String := []
  style : List String := []
  error : List String := []
  action : List String := []
deriving Repr, DecidableEq

/-- Per-type slot values already filled in the conversation. -/
structure SlotState where
  defect : List String := []
  operation : List String := []
  style : List String := []
  error : List String := []
deriving Repr, DecidableEq

/-- Response-strategy record produced by the result-quality analysis. -/
structure ResponseStrategy where
  strategy : String
  can_direct_answer : Bool
  needs_clarification : Bool
  clarification_type : Option String
  unique_values : UniqueValues
  has_actions : Bool
  reasoning : String
deriving Repr, DecidableEq

/-- Append of a value to a distinct-value list: only non-missing values not
already present are added. -/
def addUnique (l : List String) (v : String) : List String :=
  if v ≠ "" ∧ v ∉ l then l ++ [v] else l

/-- One step of the extraction loop over result rows: collect distinct
defects, operations, styles, errors, record whether any row carries an
action, and collect distinct actions. Fact rows carry a single action string
and no actions list, and relationship nodes carry neither, so the actions
list key of the source is absent on every document shape. -/
def extractUniqueStep (acc : UniqueValues × Bool) (result : QueryDoc) :
    UniqueValues × Bool :=
  let u := acc.1
  let u := { u with defect := addUnique u.defect result.getDefect }
  let u := { u with operation := addUnique u.operation result.getOperation }
  let u := { u with style := addUnique u.style result.getStyle }
  let u := { u with error := addUnique u.error result.getError }
  let has_actions := acc.2 || result.getAction ≠ ""
  let u :=
    if result.getAction ≠ "" then { u with action := addUnique u.action result.getAction }
    else u
  (u, has_actions)

/-- Extraction of the distinct values per node type appearing across all
result rows, plus whether any row carries an action. -/
def extractUnique (query_results : List QueryDoc) : UniqueValues × Bool :=
  query_results.foldl extractUniqueStep ({}, false)

/-- Result-quality analysis deciding the response strategy from the retrieved
rows and the slot-presence booleans used by the query: no rows give
no_results; all four asserted give direct_answer; exactly
defect+operation+style asserted inspect the distinct errors; any remaining
combination with error asserted inspects the distinct defects; every other
combination lists options with a multiple-type clarification. -/
def analyze_result_quality (query_results : List QueryDoc) (query_method : String)
    (has_defect has_operation has_style has_error : Bool)
    (filled_slots : SlotState) : ResponseStrategy :=
  if query_results = [] then
    { strategy := "no_results", can_direct_answer := false,
      needs_clarification := true, clarification_type := none,
      unique_values := {}, has_actions := false,
      reasoning := "No results found in knowledge base" }
  else
    let extracted := extractUnique query_results
    let unique_values := extracted.1
    let has_actions := extracted.2
    if has_defect && has_operation && has_style && has_error then
      if has_actions ∧ query_results.length > 0 then
        { strategy := "direct_answer", can_direct_answer := true,
          needs_clarification := false, clarification_type := none,
          unique_values := unique_values, has_actions := true,
          reasoning := "All 4 parameters specified, results contain actions - can provide direct answer" }
      else if query_results.length > 0 then
        { strategy := "direct_answer", can_direct_answer := true,
          needs_clarification := false, clarification_type := none,
          unique_values := unique_values, has_actions := false,
          reasoning := "All 4 parameters specified, results available - provide available information" }
      else
        { strategy := "no_results", can_direct_answer := false,
          needs_clarification := true, clarification_type := none,
          unique_values := unique_values, has_actions := false,
          reasoning := "All 4 parameters specified but no results found" }
    else if has_defect && has_operation && has_style then
      let unique_errors := unique_values.error
      if unique_errors.length = 0 then
        if has_actions then
          { strategy := "direct_answer", can_direct_answer := true,
            needs_clarification := false, clarification_type := none,
            unique_values := unique_values, has_actions := true,
            reasoning := "3 parameters specified, results contain actions without errors - can provide direct answer" }
        else
          { strategy := "list_options", can_direct_answer := false,
            needs_clarification := true, clarification_type := some "error",
            unique_values := unique_values, has_actions := false,
            reasoning := "3 parameters specified but no errors/actions in results - need to clarify" }
      else if unique_errors.length = 1 then
        if has_actions then
          { strategy := "direct_answer", can_direct_answer := true,
            needs_clarification := false, clarification_type := none,
            unique_values := unique_values, has_actions := true,
            reasoning := "3 parameters specified, single error found with actions - can provide direct answer" }
        else
          { strategy := "direct_answer", can_direct_answer := true,
            needs_clarification := false, clarification_type := none,
            unique_values := unique_values, has_actions := false,
            reasoning := "3 parameters specified, single error found - provide available information" }
      else
        { strategy := "list_options", can_direct_answer := false,
          needs_clarification := true, clarification_type := some "error",
          unique_values := unique_values, has_actions := has_actions,
          reasoning := "3 parameters specified, " ++ toString unique_errors.length ++ " errors found - need to ask which error" }
    else if has_error then
      let unique_defects := unique_values.defect
      if unique_defects.length = 0 then
        if has_actions then
          { strategy := "direct_answer", can_direct_answer := true,
            needs_clarification := false, clarification_type := none,
            unique_values := unique_values, has_actions := true,
            reasoning := "Error specified, results contain actions without defects - can provide direct answer" }
        else
          { strategy := "list_options", can_direct_answer := false,
            needs_clarification := true, clarification_type := some "defect",
            unique_values := unique_values, has_actions := false,
            reasoning := "Error specified but no defects/actions in results - need to clarify" }
      else if unique_defects.length = 1 then
        if has_defect ∧ unique_defects.headD "" ∈ filled_slots.defect then
          if has_actions then
            { strategy := "direct_answer", can_direct_answer := true,
              needs_clarification := false, clarification_type := none,
              unique_values := unique_values, has_actions := true,
              reasoning := "Error + defect specified, results contain actions - can provide direct answer" }
          else
            { strategy := "direct_answer", can_direct_answer := true,
              needs_clarification := false, clarification_type := none,
              unique_values := unique_values, has_actions := false,
              reasoning := "Error + defect specified - provide available information" }
        else
          { strategy := "direct_answer", can_direct_answer := true,
            needs_clarification := false, clarification_type := none,
            unique_values := unique_values, has_actions := has_actions,
            reasoning := "Error specified, single defect found - can provide answer" }
      else
        { strategy := "list_options", can_direct_answer := false,
          needs_clarification := true, clarification_type := some "defect",
          unique_values := unique_values, has_actions := has_actions,
          reasoning := "Error specified, " ++ toString unique_defects.length ++ " defects found - need to ask which defect" }
    else
      { strategy := "list_options", can_direct_answer := false,
        needs_clarification := true, clarification_type := some "multiple",
        unique_values := unique_values, has_actions := has_actions,
        reasoning := "Non-precise query - list available options and ask for clarification" }

/-- Extraction of the values carried by registry matches of one node type,
dropping empty values. -/
def extract_values_from_registry_matches (registry_matches : List RegistryMatch)
    (node_type : String) : List String :=
  registry_matches.filterMap (fun m =>
    if m.node_type = node_type ∧ m.value ≠ "" then some m.value else none)

/-- Separator line of sixty equals signs used by the result formatters. -/
def sepLine : String := String.mk (List.replicate 60 (Char.ofNat 61))

/-- Per-record lines of the precise formatter: record header, then one line
per non-missing field. The extra case metadata fields of the source are not
carried by any indexed row and produce no lines. -/
def preciseRecordLines (i : Nat) (row : QueryDoc) : List String :=
  [sepLine, "Record " ++ toString (i + 1) ++ ":"]
    ++ (if row.getDefect ≠ "" then ["  Defect: " ++ row.getDefect] else [])
    ++ (if row.getOperation ≠ "" then ["  Operation: " ++ row.getOperation] else [])
    ++ (if row.getStyle ≠ "" then ["  Style: " ++ row.getStyle] else [])
    ++ (if row.getError ≠ "" then ["  Error: " ++ row.getError] else [])
    ++ (if row.getAction ≠ "" then ["  Action: " ++ row.getAction] else [])
    ++ [""]

/-- Deterministic text rendering of precise query results. -/
def format_precise_results (results : List QueryDoc) : String :=
  if results = [] then "No matching records found in the knowledge base."
  else
    String.intercalate "\n"
      (("Found " ++ toString results.length ++ " matching record(s) in the knowledge base:\n")
        :: (results.enum.map (fun p => preciseRecordLines p.1 p.2)).flatten)

/-- Per-record lines of the error-precise formatter: error first, then the
remaining non-missing fields. -/
def errorPreciseRecordLines (i : Nat) (row : QueryDoc) : List String :=
  [sepLine, "Record " ++ toString (i + 1) ++ ":"]
    ++ (if row.getError ≠ "" then ["  Error: " ++ row.getError] else [])
    ++ (if row.getDefect ≠ "" then ["  Defect: " ++ row.getDefect] else [])
    ++ (if row.getOperation ≠ "" then ["  Operation: " ++ row.getOperation] else [])
    ++ (if row.getStyle ≠ "" then ["  Style: " ++ row.getStyle] else [])
    ++ [""]

/-- Deterministic text rendering of error-precise query results. -/
def format_error_precise_results (results : List QueryDoc) : String :=
  if results = [] then "No matching records found for this error in the knowledge base."
  else
    String.intercalate "\n"
      (("Found " ++ toString results.length ++ " matching record(s) for this error:\n")
        :: (results.enum.map (fun p => errorPreciseRecordLines p.1 p.2)).flatten)

/-- Section of related values in the non-precise formatter, limited to the
top five entries. -/
def relSection (title : String) (rels : List NameCount) : List String :=
  if rels = [] then []
  else ("\n   " ++ title ++ ":")
    :: (rels.take 5).map (fun rel =>
      "     - " ++ rel.name ++ " (" ++ toString rel.count ++ " cases)")

/-- Section of top actions in the non-precise formatter, limited to the top
five entries. -/
def topActionsSection (top_actions : List ActionCount) : List String :=
  if top_actions = [] then []
  else "\n   Top Actions:"
    :: (top_actions.take 5).map (fun a =>
      "     - " ++ a.action ++ " (" ++ toString a.count ++ " cases)")

/-- Per-node lines of the non-precise formatter. -/
def relNodeLines (i : Nat) (d : QueryDoc) : List String :=
  let n := d.asRel.getD {}
  [sepLine, toString (i + 1) ++ ". " ++ pyUpper n.node_type ++ " :: " ++ n.name]
    ++ (if n.total_cases ≠ 0 then ["   Total cases: " ++ toString n.total_cases] else [])
    ++ relSection "Related Operations" n.related_operations
    ++ relSection "Related Defects" n.related_defects
    ++ relSection "Related Errors" n.related_errors
    ++ relSection "Related Styles" n.related_styles
    ++ topActionsSection n.top_actions
    ++ [""]

/-- Deterministic text rendering of non-precise (relationship) query
results. -/
def format_non_precise_results (results : List QueryDoc) : String :=
  if results = [] then "No matching relationship nodes found in the relationship index."
  else
    String.intercalate "\n"
      (("Found " ++ toString results.length ++ " related node(s) in the relationship index:\n")
        :: (results.enum.map (fun p => relNodeLines p.1 p.2)).flatten)

/-- Fixed text rendered for generic queries with no registry matches. -/
def format_generic_results : String :=
  "This is a generic manufacturing query with no specific registry matches. "
    ++ "The query is related to manufacturing processes, technical specifications, "
    ++ "quality control, or production topics, but does not match specific items "
    ++ "in the knowledge base or relationship index."

/-- Record of the 4-parameter fallback situation stored while the error
filter cannot be honored. -/
structure FallbackInfo where
  original_query : String
  fallback_query : String
  error_filter_applied : Bool
  reason : String
deriving Repr, DecidableEq

/-- Classify-node entry of the metadata map. Optional fields model dictionary
keys that a given write path may leave absent. -/
structure ClassifyEntry where
  classification : Option String := none
  index_used : Option String := none
  query_method : Option String := none
  results_count : Nat := 0
  results : List QueryDoc := []
  formatted_text : String := ""
  fallback_used : Option Bool := none
  fallback_info : Option FallbackInfo := none
  response_strategy : Option ResponseStrategy := none
  error : Option String := none
deriving Repr, DecidableEq

/-- Analysis-node entry of the metadata map, restricted to the keys the
classify node reads. -/
structure AnalysisMeta where
  classification_registry : Option (List RegistryMatch) := none
  merge_applied : Bool := false
deriving Repr, DecidableEq

/-- One historical workflow entry carrying the registry matches of a prior
turn. -/
structure HistEntry where
  workflow_run_id : String := ""
  query : String := ""
  response : String := ""
  classification : Option String := none
  registry_matches : List RegistryMatch := []
  created_at : String := ""
deriving Repr, DecidableEq

/-- Metadata map of the workflow state, restricted to the keys read or
written by the embedded nodes. Optional fields model keys that may be
absent. -/
structure Metadata where
  thread_id : Option String := none
  user_id : Option String := none
  registry_matches : List RegistryMatch := []
  analysis : Option AnalysisMeta := none
  historical_registry_matches : Option (List HistEntry) := none
  consolidated_slot_state : Option SlotState := none
  thread_memory_summary : Option String := none
  thread_memory_available : Option Bool := none
  workflow_count : Option Nat := none
  thread_memory_error : Option String := none
  summary_fallback : Option Bool := none
  classify : Option ClassifyEntry := none
deriving Repr, DecidableEq

/-- Workflow state threaded through the graph, restricted to the fields the
embedded nodes read or write. -/
structure OCAPState where
  query : String := ""
  keywords : Option (List String) := none
  classification : Option String := none
  response : Option String := none
  metadata : Option Metadata := none
deriving Repr, DecidableEq

/-- Search-service client: the documents of the two indices, plus a failure
mode under which every issued search raises the given message. -/
structure ESClient where
  fact : List Row
  rel : List RelNode
  searchFails : Option String := none

/-- Execution of one search call against the client: raises when the client
is failing, otherwise returns the rows the query semantics selects. -/
def ESClient.run {α : Type} (c : ESClient) (result : α) : Except String α :=
  match c.searchFails with
  | some m => Except.error m
  | none => Except.ok result

/-- Node types every classification registry is expected to cover. -/
def requiredNodeTypes : List String := ["defect", "operation", "style", "error"]

/-- Supplementation of an incomplete classification registry from the most
recent historical entry: node types absent from the registry are filled from
the most recent prior turn, each type at most once. -/
def supplementFromHistory (classification_registry : List RegistryMatch)
    (historical_registry_matches : List HistEntry) : List RegistryMatch :=
  match historical_registry_matches with
  | [] => classification_registry
  | most_recent :: _ =>
    let current_node_types := classification_registry.filterMap (fun m =>
      if m.node_type ≠ "" then some m.node_type else none)
    let missing_node_types := requiredNodeTypes.filter (fun t => t ∉ current_node_types)
    if missing_node_types = [] then classification_registry
    else
      most_recent.registry_matches.foldl (fun acc hist_match =>
        if hist_match.node_type ∈ missing_node_types ∧
            ¬ acc.any (fun m => m.node_type == hist_match.node_type)
        then acc ++ [hist_match] else acc) classification_registry

/-- Routing and retrieval of lines 922 to 1070 of the classify node: the
priority-ordered decision table over the available node types, including the
4-parameter fallback that re-queries with three parameters, locally filters
by error, keeps the unfiltered rows when the filter empties them, and records
the situation in the working metadata. Returns the results, the index used,
the query method and the (possibly updated) metadata. -/
def routeQuery (client : ESClient) (metadata : Metadata)
    (registry_matches : List RegistryMatch)
    (defects operations styles errors : List String) :
    Except String (List QueryDoc × Option String × Option String × Metadata) := do
  let has_defect := !defects.isEmpty
  let has_operation := !operations.isEmpty
  let has_style := !styles.isEmpty
  let has_error := !errors.isEmpty
  if has_defect && has_operation && has_style && has_error then do
    let defect := defects.headD ""
    let operation_candidates := operations
    let style := styles.headD ""
    let error := errors.headD ""
    let index_used := some "ocap-knowledge-base"
    let query_results ← client.run
      (get_rows_with_error client.fact defect operation_candidates style error 50)
    if query_results.length = 0 then do
      let query_results ← client.run
        (get_full_rows client.fact defect operation_candidates style 50)
      if query_results ≠ [] then
        let filtered_results := query_results.filter (fun row =>
          normalize_value (some row.error) == normalize_value (some error))
        if filtered_results ≠ [] then
          pure (filtered_results.map QueryDoc.fact, index_used,
            some "get_full_rows_fallback", metadata)
        else
          let entry := metadata.classify.getD {}
          let updated_metadata := { metadata with classify := some { entry with
            fallback_info := some {
              original_query := "get_rows_with_error (4 params)",
              fallback_query := "get_full_rows (3 params)",
              error_filter_applied := false,
              reason := "No rows matched error=" ++ error ++ " in 3-parameter results" } } }
          pure (query_results.map QueryDoc.fact, index_used,
            some "get_full_rows_fallback", updated_metadata)
      else
        pure ([], index_used, some "get_full_rows_fallback", metadata)
    else
      pure (query_results.map QueryDoc.fact, index_used,
        some "get_rows_with_error", metadata)
  else if has_error && has_defect then do
    let error := errors.headD ""
    let defect := defects.headD ""
    let query_results ← client.run
      (get_rows_by_error_and_defect client.fact error defect 50)
    pure (query_results.map QueryDoc.fact, some "ocap-knowledge-base",
      some "get_rows_by_error_and_defect", metadata)
  else if has_defect && has_operation && has_style then do
    let defect := defects.headD ""
    let operation_candidates := operations
    let style := styles.headD ""
    let query_results ← client.run
      (get_full_rows client.fact defect operation_candidates style 50)
    pure (query_results.map QueryDoc.fact, some "ocap-knowledge-base",
      some "get_full_rows", metadata)
  else if has_error then do
    let error := errors.headD ""
    let query_results ← client.run (get_rows_by_error client.fact error 50)
    pure (query_results.map QueryDoc.fact, some "ocap-knowledge-base",
      some "get_rows_by_error", metadata)
  else if has_defect || has_operation || has_style then do
    let query_results ← client.run (get_rows_non_precise client.rel registry_matches 50)
    pure (query_results.map QueryDoc.rel, some "ocap-relationship-index",
      some "get_rows_non_precise", metadata)
  else
    pure ([], none, some "generic", metadata)

/-- Formatting dispatch of the classify node: precise rendering for the
3-parameter, 4-parameter, fallback and error-plus-defect methods,
error-precise rendering for error-only, relationship rendering for
non-precise, the fixed generic text otherwise. -/
def formatDispatch (query_method : Option String) (query_results : List QueryDoc) : String :=
  if query_method = some "get_rows_with_error" ∨ query_method = some "get_full_rows"
      ∨ query_method = some "get_full_rows_fallback" then
    format_precise_results query_results
  else if query_method = some "get_rows_by_error_and_defect" then
    format_precise_results query_results
  else if query_method = some "get_rows_by_error" then
    format_error_precise_results query_results
  else if query_method = some "get_rows_non_precise" then
    format_non_precise_results query_results
  else if query_method = some "generic" then
    format_generic_results
  else if query_results ≠ [] then format_precise_results query_results
  else "No results found."

/-- Body of the try block of the classify node: obtain the client, extract
the per-type candidate values, route and execute the retrieval, format the
results, analyze result quality, and assemble the final metadata whose
classify entry is written wholesale. -/
def runClassify (clientRes : Except String ESClient) (metadata : Metadata)
    (registry_matches : List RegistryMatch) (classification : Option String) :
    Except String Metadata := do
  let client ← clientRes
  let defects := extract_values_from_registry_matches registry_matches "defect"
  let operations := extract_values_from_registry_matches registry_matches "operation"
  let styles := extract_values_from_registry_matches registry_matches "style"
  let errors := extract_values_from_registry_matches registry_matches "error"
  let (query_results, index_used, query_method, metadata) ←
    routeQuery client metadata registry_matches defects operations styles errors
  let formatted_text := formatDispatch query_method query_results
  let response_strategy := analyze_result_quality query_results (query_method.getD "")
    (!defects.isEmpty) (!operations.isEmpty) (!styles.isEmpty) (!errors.isEmpty)
    (metadata.consolidated_slot_state.getD {})
  let final_metadata := { metadata with classify := some {
    classification := classification,
    index_used := index_used,
    query_method := query_method,
    results_count := query_results.length,
    results := query_results,
    formatted_text := formatted_text,
    fallback_used := some false,
    response_strategy := some response_strategy } }
  pure final_metadata

/-- Effective registry matches of the classify node: the classification
registry from the analysis metadata when non-empty (supplemented from the
most recent historical entry when a merge was applied), otherwise the plain
registry matches of the metadata. -/
def effectiveRegistryMatches (metadata : Metadata) : List RegistryMatch :=
  let analysis_metadata := metadata.analysis.getD {}
  let classification_registry := analysis_metadata.classification_registry
  let registry_matches :=
    match classification_registry with
    | some l => if l ≠ [] then l else metadata.registry_matches
    | none => metadata.registry_matches
  if analysis_metadata.merge_applied ∧ (classification_registry.getD []) ≠ [] then
    supplementFromHistory (classification_registry.getD [])
      (metadata.historical_registry_matches.getD [])
  else registry_matches

/-- Classify node: with no classification in the state the node skips and
returns the empty update; otherwise it runs the routing and retrieval, and
any raised failure is caught at the node boundary and converted into an error
entry with an empty result set. -/
def classify (clientRes : Except String ESClient) (state : OCAPState) :
    Option Metadata :=
  let classification := state.classification
  let metadata := state.metadata.getD {}
  let registry_matches := effectiveRegistryMatches metadata
  if classification = none ∨ classification = some "" then none
  else
    match runClassify clientRes metadata registry_matches classification with
    | Except.ok final_metadata => some final_metadata
    | Except.error e => some { metadata with classify := some {
        classification := classification,
        error := some e,
        results_count := 0,
        results := [],
        formatted_text := "Error occurred while querying Elasticsearch: " ++ e } }

/-- Application of the classify-node update to the state: the empty update
leaves the state unchanged; a metadata update replaces the metadata channel,
since the node emits a complete metadata map and the right-biased reducer
then yields the update itself. -/
def applyClassifyUpdate (state : OCAPState) (update : Option Metadata) : OCAPState :=
  match update with
  | none => state
  | some m => { state with metadata := some m }

/-- Per-turn record blob stored in the memory store for one prior workflow
run. -/
structure WorkflowData where
  query : String := ""
  response : String := ""
  classification : Option String := none
  registry_matches : Option (List RegistryMatch) := none
  created_at : String := ""
deriving Repr, DecidableEq

/-- Outcome of fetching one workflow blob: the fetch may raise (skipped), the
key may hold nothing (skipped), the payload may fail to parse (skipped), or
it parses into a workflow record. -/
inductive Blob where
  | getFails (msg : String)
  | missing
  | unparsable
  | record (w : WorkflowData)
deriving Repr, DecidableEq

/-- Memory store as seen by the consolidator: unreachable, failing on the
list read, or available with an ordered identifier list plus per-identifier
blobs. The unreachable case covers both the availability probe returning
false and the client being absent, which the source handles identically. -/
inductive Redis where
  | unavailable
  | listFails (msg : String)
  | available (workflow_run_ids : List String) (blobs : List (String × Blob))
deriving Repr, DecidableEq

/-- One prior interaction kept for summarization. -/
structure Interaction where
  query : String
  response : String
  classification : Option String
deriving Repr, DecidableEq

/-- Fetch of one workflow blob by identifier; an identifier without a stored
blob reads as holding nothing. -/
def lookupBlob (blobs : List (String × Blob)) (workflow_run_id : String) : Blob :=
  match blobs.lookup workflow_run_id with
  | some b => b
  | none => Blob.missing

/-- One step of the retrieval loop of the memory consolidator: failed or
empty or unparsable fetches are skipped; a parsed record contributes a
historical entry when it carries a non-empty registry-match list, and an
interaction when it carries a query. -/
def collectStep (blobs : List (String × Blob))
    (acc : List Interaction × List HistEntry) (workflow_run_id : String) :
    List Interaction × List HistEntry :=
  match lookupBlob blobs workflow_run_id with
  | Blob.getFails _ => acc
  | Blob.missing => acc
  | Blob.unparsable => acc
  | Blob.record w =>
    let interaction : Interaction :=
      { query := w.query, response := w.response, classification := w.classification }
    let hist :=
      match w.registry_matches with
      | some l =>
        if l ≠ [] then
          acc.2 ++ [{ workflow_run_id := workflow_run_id, query := w.query,
                      response := w.response, classification := w.classification,
                      registry_matches := l, created_at := w.created_at }]
        else acc.2
      | none => acc.2
    let inters := if interaction.query ≠ "" then acc.1 ++ [interaction] else acc.1
    (inters, hist)

/-- Retrieval loop of the memory consolidator over the stored identifier
list, in storage order. -/
def collectInteractions (workflow_run_ids : List String)
    (blobs : List (String × Blob)) : List Interaction × List HistEntry :=
  workflow_run_ids.foldl (collectStep blobs) ([], [])

/-- Thread identifier generated when none is carried in metadata, from the
user identifier and the hash of the query modulo ten thousand. The hash value
itself is an input, since its computation is interpreter-defined. -/
def generatedThreadId (user_id : Option String) (queryHash : Nat) : String :=
  match user_id with
  | some uid =>
    if uid ≠ "" then "user_" ++ uid ++ "_thread_" ++ toString (queryHash % 10000)
    else "thread_" ++ toString (queryHash % 10000)
  | none => "thread_" ++ toString (queryHash % 10000)

/-- Plain-text summary built without the oracle when summarization fails. -/
def fallbackSummary (workflow_interactions : List Interaction) : String :=
  "Previous interactions:\n" ++ String.intercalate "\n"
    (workflow_interactions.enum.map (fun p =>
      "Interaction " ++ toString (p.1 + 1) ++ ": Query: " ++ pyTake p.2.query 100
        ++ "... " ++ "Response: "
        ++ (if p.2.response ≠ "" then pyTake p.2.response 100 else "N/A") ++ "..."))

/-- Memory consolidation node: retrieves the identifier list of the thread,
fetches and parses each blob, and either produces a summary (oracle or
fallback) with the historical registry matches, or an explicit no-memory
state when the store is unavailable, the list read fails, no prior turns
exist, or no fetched turn carries a query. -/
def summarize_thread_memory (redis : Redis) (llm : Except String String)
    (queryHash : Nat) (state : OCAPState) : Option Metadata :=
  let metadata := state.metadata.getD {}
  match redis with
  | Redis.unavailable =>
    some { metadata with
      thread_memory_summary := none,
      thread_memory_available := some false }
  | Redis.listFails e =>
    some { metadata with
      thread_memory_summary := none,
      thread_memory_available := some false,
      thread_memory_error := some e,
      historical_registry_matches := some [] }
  | Redis.available workflow_run_ids blobs =>
    let thread_id :=
      match metadata.thread_id with
      | some t =>
        if t ≠ "" then t else generatedThreadId metadata.user_id queryHash
      | none => generatedThreadId metadata.user_id queryHash
    if workflow_run_ids = [] then
      some { metadata with
        thread_memory_summary := none,
        thread_memory_available := some false,
        workflow_count := some 0,
        historical_registry_matches := some [] }
    else
      let collected := collectInteractions workflow_run_ids blobs
      let workflow_interactions := collected.1
      let historical_registry_matches := collected.2
      if workflow_interactions = [] then
        some { metadata with
          thread_memory_summary := none,
          thread_memory_available := some false,
          workflow_count := some 0,
          historical_registry_matches := some [] }
      else
        match llm with
        | Except.ok summary =>
          some { metadata with
            thread_memory_summary := some (pyStrip summary),
            thread_memory_available := some true,
            workflow_count := some workflow_interactions.length,
            thread_id := some thread_id,
            historical_registry_matches := some historical_registry_matches }
        | Except.error _ =>
          some { metadata with
            thread_memory_summary := some (fallbackSummary workflow_interactions),
            thread_memory_available := some true,
            workflow_count := some workflow_interactions.length,
            thread_id := some thread_id,
            summary_fallback := some true,
            historical_registry_matches := some historical_registry_matches }

/-- Write-side maintenance of the per-thread workflow list: each completed
turn pushes its identifier at the head and the list is trimmed to the first
one hundred entries. -/
def storeWorkflow (workflow_ids : List String) (workflow_run_id : String) : List String :=
  (workflow_run_id :: workflow_ids).take 100

/-- Generic metadata dictionary: a finite map from string keys to values of
one type. -/
abbrev Dict (α : Type) := Finmap (fun _ : String => α)

/-- Update of a dictionary by another, as the dictionary update operation:
every key of the second overwrites, keys only in the first survive. -/
def dict_update {α : Type} (base d : Dict α) : Dict α := d ∪ base

/-- Merge of two optional metadata dictionaries: start from an empty result,
update it with the left map when present and non-empty, then update it with
the right map when present and non-empty. -/
def merge_metadata {α : Type} (left right : Option (Dict α)) : Dict α :=
  let result : Dict α := ∅
  let result :=
    match left with
    | some l => if l.keys ≠ ∅ then dict_update result l else result
    | none => result
  match right with
  | some r => if r.keys ≠ ∅ then dict_update result r else result
  | none => result

/-! Helper lemmas about the dictionary model. -/

/-- Lookup through a dictionary update: the updating map wins on every key it
holds. -/
theorem lookup_dict_update {α : Type} (base d : Dict α) (k : String) :
    (dict_update base d).lookup k = (d.lookup k).or (base.lookup k) := by
  unfold dict_update
  by_cases h : k ∈ d
  · obtain ⟨v, hv⟩ := Finmap.mem_iff.1 h
    rw [Finmap.lookup_union_left h, hv, Option.or_some]
  · rw [Finmap.lookup_union_right h, Finmap.lookup_eq_none.2 h, Option.none_or]

/-- Dictionary whose key set is empty is the empty dictionary. -/
theorem eq_empty_of_keys_eq_empty {α : Type} {d : Dict α} (h : d.keys = ∅) :
    d = ∅ := by
  apply Finmap.ext_lookup
  intro x
  rw [Finmap.lookup_empty, Finmap.lookup_eq_none]
  intro hx
  exact absurd (h ▸ Finmap.mem_keys.2 hx) (Finset.not_mem_empty x)

/-- Lookup characterization of the metadata merge of two present maps. -/
theorem merge_metadata_lookup {α : Type} (l r : Dict α) (k : String) :
    (merge_metadata (some l) (some r)).lookup k = (r.lookup k).or (l.lookup k) := by
  show (if r.keys ≠ ∅ then dict_update (if l.keys ≠ ∅ then dict_update ∅ l else ∅) r
      else (if l.keys ≠ ∅ then dict_update ∅ l else ∅)).lookup k
    = (r.lookup k).or (l.lookup k)
  by_cases hl : l.keys = ∅ <;> by_cases hr : r.keys = ∅ <;>
    simp only [hl, hr, ne_eq, not_true_eq_false, not_false_eq_true, if_true, if_false,
      ite_true, ite_false, lookup_dict_update, Finmap.lookup_empty, Option.or_none,
      Option.none_or]
  · rw [eq_empty_of_keys_eq_empty hl, eq_empty_of_keys_eq_empty hr]
    simp [Finmap.lookup_empty]
  · rw [eq_empty_of_keys_eq_empty hl, Finmap.lookup_empty, Option.or_none]
  · rw [eq_empty_of_keys_eq_empty hr, Finmap.lookup_empty, Option.none_or]

/-- Lookup characterization of the metadata merge with an absent right
side. -/
theorem merge_metadata_lookup_none_right {α : Type} (l : Dict α) (k : String) :
    (merge_metadata (some l) none).lookup k = l.lookup k := by
  show (if l.keys ≠ ∅ then dict_update ∅ l else ∅).lookup k = l.lookup k
  by_cases hl : l.keys = ∅ <;>
    simp only [hl, ne_eq, not_true_eq_false, not_false_eq_true, if_true, if_false,
      ite_true, ite_false, lookup_dict_update, Finmap.lookup_empty, Option.or_none]
  rw [eq_empty_of_keys_eq_empty hl, Finmap.lookup_empty]

/-- Lookup characterization of the metadata merge with an absent left
side. -/
theorem merge_metadata_lookup_none_left {α : Type} (r : Dict α) (k : String) :
    (merge_metadata none (some r)).lookup k = r.lookup k := by
  show (if r.keys ≠ ∅ then dict_update ∅ r else ∅).lookup k = r.lookup k
  by_cases hr : r.keys = ∅ <;>
    simp only [hr, ne_eq, not_true_eq_false, not_false_eq_true, if_true, if_false,
      ite_true, ite_false, lookup_dict_update, Finmap.lookup_empty, Option.or_none]
  rw [eq_empty_of_keys_eq_empty hr, Finmap.lookup_empty]

/-- C6: the metadata merge is a shallow right-biased union: every key is
resolved to the right value when the right map holds it, the left value
otherwise; merging with an empty or absent side is the identity; re-applying
the same right side is idempotent; an absent argument behaves as the empty
map. -/
theorem c6_merge_metadata_right_biased_union :
    (∀ (α : Type) (l r : Dict α) (k : String),
      (merge_metadata (some l) (some r)).lookup k = (r.lookup k).or (l.lookup k))
    ∧ (∀ (α : Type) (l : Dict α), merge_metadata (some l) (some ∅) = l)
    ∧ (∀ (α : Type) (r : Dict α), merge_metadata (some ∅) (some r) = r)
    ∧ (∀ (α : Type) (a b : Dict α),
      merge_metadata (some (merge_metadata (some a) (some b))) (some b)
        = merge_metadata (some a) (some b))
    ∧ (∀ (α : Type) (l : Dict α), merge_metadata (some l) none = l)
    ∧ (∀ (α : Type) (r : Dict α), merge_metadata none (some r) = r)
    ∧ (∀ (α : Type), merge_metadata (none : Option (Dict α)) none = (∅ : Dict α)) := by
  refine ⟨fun α l r k => merge_metadata_lookup l r k, ?_, ?_, ?_, ?_, ?_, ?_⟩
  · intro α l
    apply Finmap.ext_lookup
    intro x
    rw [merge_metadata_lookup, Finmap.lookup_empty, Option.none_or]
  · intro α r
    apply Finmap.ext_lookup
    intro x
    rw [merge_metadata_lookup, Finmap.lookup_empty, Option.or_none]
  · intro α a b
    apply Finmap.ext_lookup
    intro x
    rw [merge_metadata_lookup, merge_metadata_lookup]
    cases b.lookup x <;> simp [Option.or]
  · intro α l
    apply Finmap.ext_lookup
    intro x
    rw [merge_metadata_lookup_none_right]
  · intro α r
    apply Finmap.ext_lookup
    intro x
    rw [merge_metadata_lookup_none_left]
  · intro α
    rfl

/-- C10: with no classification value in the incoming state, the classify
node returns the empty update for every search client (so no index query can
influence the outcome), and applying the empty update leaves every state
field, including the metadata map, exactly as it was; in particular no
retrieval results, formatted text or response strategy are added. -/
theorem c10_no_classification_skips (clientRes : Except String ESClient)
    (state : OCAPState) (h : state.classification = none) :
    classify clientRes state = none
      ∧ applyClassifyUpdate state (classify clientRes state) = state := by
  have hnone : classify clientRes state = none := by
    simp [classify, h]
  refine ⟨hnone, ?_⟩
  rw [hnone]
  rfl

/-- Witness for C10 at the default state and an empty client. -/
theorem c10_witness :
    classify (Except.ok { fact := [], rel := [] }) {} = none
      ∧ applyClassifyUpdate {} (classify (Except.ok { fact := [], rel := [] }) {}) = {} :=
  c10_no_classification_skips (Except.ok { fact := [], rel := [] }) {} rfl

/-- C5: with exactly defect, operation and style asserted (no error), a
non-empty result set is classified by its distinct errors: none with actions
gives a direct answer, none without actions lists options asking for an
error, exactly one gives a direct answer, and more than one lists options
asking for an error. -/
theorem c5_three_param_strategy (query_results : List QueryDoc)
    (query_method : String) (filled_slots : SlotState)
    (hne : query_results ≠ []) :
    ((extractUnique query_results).1.error.length = 0 →
      (extractUnique query_results).2 = true →
      (analyze_result_quality query_results query_method true true true false
        filled_slots).strategy = "direct_answer")
    ∧ ((extractUnique query_results).1.error.length = 0 →
      (extractUnique query_results).2 = false →
      (analyze_result_quality query_results query_method true true true false
        filled_slots).strategy = "list_options"
      ∧ (analyze_result_quality query_results query_method true true true false
        filled_slots).clarification_type = some "error")
    ∧ ((extractUnique query_results).1.error.length = 1 →
      (analyze_result_quality query_results query_method true true true false
        filled_slots).strategy = "direct_answer")
    ∧ ((extractUnique query_results).1.error.length > 1 →
      (analyze_result_quality query_results query_method true true true false
        filled_slots).strategy = "list_options"
      ∧ (analyze_result_quality query_results query_method true true true false
        filled_slots).clarification_type = some "error") := by
  unfold analyze_result_quality
  simp only [if_neg hne, Bool.and_self, Bool.and_false, Bool.and_true, Bool.false_and,
    Bool.true_and, if_false, if_true, ite_true, ite_false, Bool.false_eq_true]
  refine ⟨?_, ?_, ?_, ?_⟩
  · intro h0 hact
    simp [h0, hact]
  · intro h0 hact
    simp [h0, hact]
  · intro h1
    rw [if_neg (by omega), if_pos h1]
    split <;> rfl
  · intro hgt
    have h0 : ¬ (extractUnique query_results).1.error.length = 0 := by omega
    have h1 : ¬ (extractUnique query_results).1.error.length = 1 := by omega
    simp [h0, h1]

/-- Witness for C5 at a two-row result set with a single distinct error. -/
theorem c5_witness :
    (analyze_result_quality
      [QueryDoc.fact { defect := "d1", error := "e1" },
       QueryDoc.fact { defect := "d1", error := "e1", action := "a1" }]
      "get_full_rows" true true true false {}).strategy = "direct_answer" :=
  (c5_three_param_strategy
    [QueryDoc.fact { defect := "d1", error := "e1" },
     QueryDoc.fact { defect := "d1", error := "e1", action := "a1" }]
    "get_full_rows" {} (by decide)).2.2.1 (by decide)

/-- C4 counterexample: with error and defect asserted but operation and style
absent, a non-empty result set holding one distinct defect is classified as a
direct answer through the defect-inspection branch, not as list_options with
a multiple clarification as the claim states for this combination. -/
theorem c4_counterexample :
    (analyze_result_quality [QueryDoc.fact { defect := "d1" }]
      "get_rows_by_error_and_defect" true false false true {}).strategy
        = "direct_answer"
    ∧ ¬ ((analyze_result_quality [QueryDoc.fact { defect := "d1" }]
      "get_rows_by_error_and_defect" true false false true {}).strategy
        = "list_options"
      ∧ (analyze_result_quality [QueryDoc.fact { defect := "d1" }]
      "get_rows_by_error_and_defect" true false false true {}).clarification_type
        = some "multiple") := by
  decide

/-- C4 amended: for every non-empty result set whose asserted combination is
not all of defect, operation and style, the classifier returns list_options
with a multiple clarification exactly when no error is asserted; when error
is asserted the defect-inspection branch applies, returning either a direct
answer with no clarification or list_options with a defect clarification,
never a multiple one. -/
theorem c4_partial_combination_strategy (query_results : List QueryDoc)
    (query_method : String) (filled_slots : SlotState)
    (has_defect has_operation has_style : Bool)
    (hne : query_results ≠ [])
    (hnot3 : (has_defect && has_operation && has_style) = false) :
    ((analyze_result_quality query_results query_method has_defect has_operation
        has_style false filled_slots).strategy = "list_options"
      ∧ (analyze_result_quality query_results query_method has_defect has_operation
        has_style false filled_slots).clarification_type = some "multiple")
    ∧ (((analyze_result_quality query_results query_method has_defect has_operation
          has_style true filled_slots).strategy = "direct_answer"
        ∧ (analyze_result_quality query_results query_method has_defect has_operation
          has_style true filled_slots).clarification_type = none)
      ∨ ((analyze_result_quality query_results query_method has_defect has_operation
          has_style true filled_slots).strategy = "list_options"
        ∧ (analyze_result_quality query_results query_method has_defect has_operation
          has_style true filled_slots).clarification_type = some "defect"))
    ∧ (analyze_result_quality query_results query_method has_defect has_operation
        has_style true filled_slots).clarification_type ≠ some "multiple" := by
  constructor
  · have hres : analyze_result_quality query_results query_method has_defect
        has_operation has_style false filled_slots
        = { strategy := "list_options", can_direct_answer := false,
            needs_clarification := true, clarification_type := some "multiple",
            unique_values := (extractUnique query_results).1,
            has_actions := (extractUnique query_results).2,
            reasoning := "Non-precise query - list available options and ask for clarification" } := by
      unfold analyze_result_quality
      rw [if_neg hne]
      simp [hnot3]
    rw [hres]
    exact ⟨rfl, rfl⟩
  · unfold analyze_result_quality
    rw [if_neg hne]
    simp only [hnot3, Bool.and_true, Bool.false_eq_true, if_false, ite_false,
      if_true, ite_true]
    repeat' split
    all_goals simp

/-- Witness for the amended C4 at a single relationship node with only an
operation asserted. -/
theorem c4_witness :
    (analyze_result_quality [QueryDoc.rel { node_type := "operation", name := "o1" }]
      "get_rows_non_precise" false true false false {}).strategy = "list_options"
    ∧ (analyze_result_quality [QueryDoc.rel { node_type := "operation", name := "o1" }]
      "get_rows_non_precise" false true false false {}).clarification_type
        = some "multiple" :=
  (c4_partial_combination_strategy
    [QueryDoc.rel { node_type := "operation", name := "o1" }]
    "get_rows_non_precise" {} false true false (by decide) (by decide)).1

/-- Retrieval method selected by the routing decision table. -/
inductive Method where
  | fourParam
  | errorDefect
  | threeParam
  | errorOnly
  | relationship
  | generic
deriving Repr, DecidableEq

/-- Branch conditions of the routing code over the presence booleans, in
source order with first match winning. -/
def selectMethod (has_defect has_operation has_style has_error : Bool) : Method :=
  if has_defect && has_operation && has_style && has_error then Method.fourParam
  else if has_error && has_defect then Method.errorDefect
  else if has_defect && has_operation && has_style then Method.threeParam
  else if has_error then Method.errorOnly
  else if has_defect || has_operation || has_style then Method.relationship
  else Method.generic

/-- Decision table with the error-only clause firing on any remaining error
presence and the relationship clause phrased as any one or two of defect,
operation, style being present. -/
def specDecisionTable (has_defect has_operation has_style has_error : Bool) : Method :=
  let present :=
    (if has_defect then 1 else 0) + (if has_operation then 1 else 0)
      + (if has_style then 1 else 0)
  if has_defect && has_operation && has_style && has_error then Method.fourParam
  else if has_error && has_defect then Method.errorDefect
  else if has_defect && has_operation && has_style then Method.threeParam
  else if has_error then Method.errorOnly
  else if present = 1 ∨ present = 2 then Method.relationship
  else Method.generic

/-- Decision table as the original claim words it: its error-only clause
requires error to be present alone, so an error accompanied only by an
operation or a style falls through to the relationship clause. -/
def claimDecisionTable (has_defect has_operation has_style has_error : Bool) : Method :=
  let present :=
    (if has_defect then 1 else 0) + (if has_operation then 1 else 0)
      + (if has_style then 1 else 0)
  if has_defect && has_operation && has_style && has_error then Method.fourParam
  else if has_error && has_defect then Method.errorDefect
  else if has_defect && has_operation && has_style then Method.threeParam
  else if has_error && !has_defect && !has_operation && !has_style then Method.errorOnly
  else if present = 1 ∨ present = 2 then Method.relationship
  else Method.generic

/-- Query-method names the classify node can report for each selected method;
the four-parameter method reports the fallback name when its first query
comes back empty. -/
def methodNames : Method → List String
  | Method.fourParam => ["get_rows_with_error", "get_full_rows_fallback"]
  | Method.errorDefect => ["get_rows_by_error_and_defect"]
  | Method.threeParam => ["get_full_rows"]
  | Method.errorOnly => ["get_rows_by_error"]
  | Method.relationship => ["get_rows_non_precise"]
  | Method.generic => ["generic"]

/-- Index queried by each selected method. -/
def methodIndex : Method → Option String
  | Method.fourParam => some "ocap-knowledge-base"
  | Method.errorDefect => some "ocap-knowledge-base"
  | Method.threeParam => some "ocap-knowledge-base"
  | Method.errorOnly => some "ocap-knowledge-base"
  | Method.relationship => some "ocap-relationship-index"
  | Method.generic => none

/-- Result-set component of a routing outcome. -/
def routedResults
    (x : Except String (List QueryDoc × Option String × Option String × Metadata)) :
    Option (List QueryDoc) :=
  match x with
  | Except.ok out => some out.1
  | Except.error _ => none

/-- Metadata component of a routing outcome. -/
def routedMetadata
    (x : Except String (List QueryDoc × Option String × Option String × Metadata)) :
    Option Metadata :=
  match x with
  | Except.ok out => some out.2.2.2
  | Except.error _ => none

/-- Search execution on a client that is not failing returns the selected
rows. -/
theorem run_ok {α : Type} {c : ESClient} (h : c.searchFails = none) (x : α) :
    c.run x = Except.ok x := by
  unfold ESClient.run
  rw [h]

/-- Bind of a successful Except computation reduces to its continuation. -/
theorem except_bind_ok {ε α β : Type} (x : α) (f : α → Except ε β) :
    (Except.ok x >>= f : Except ε β) = f x := rfl

/-- Non-empty lists are not isEmpty. -/
theorem isEmpty_false_of_ne_nil {α : Type} {l : List α} (h : l ≠ []) :
    l.isEmpty = false := by
  cases l with
  | nil => exact absurd rfl h
  | cons a t => rfl

/-- C1 counterexample: with operation and error present but defect and style
absent, the table as the claim words it (error-only requiring error alone)
selects the relationship-index query, while the routing code selects the
error-only lookup against the fact index, as a concrete routing run
confirms. -/
theorem c1_counterexample :
    claimDecisionTable false true false true = Method.relationship
    ∧ selectMethod false true false true = Method.errorOnly
    ∧ claimDecisionTable false true false true ≠ selectMethod false true false true
    ∧ routeQuery { fact := [], rel := [] } {} [] [] ["o1"] [] ["e1"]
        = Except.ok ([], some "ocap-knowledge-base", some "get_rows_by_error", {}) := by
  exact ⟨rfl, rfl, by decide, rfl⟩

/-- C1 amended: the routing branch conditions agree, top-down with first
match winning, with the amended decision table, whose error-only clause fires
on any remaining error presence; on a reachable client the routing reports
the method name and index of the selected table entry; a style normalizing to
the empty value is filtered as empty-string style rather than by omitting the
filter; and with no slot values present no query is issued and the outcome is
the generic decision with an empty result set, untouched metadata, and no
index. -/
theorem c1_routing_decision_table :
    (∀ has_defect has_operation has_style has_error : Bool,
      selectMethod has_defect has_operation has_style has_error
        = specDecisionTable has_defect has_operation has_style has_error)
    ∧ (∀ (c : ESClient) (metadata : Metadata)
        (registry_matches : List RegistryMatch)
        (defects operations styles errors : List String),
        c.searchFails = none →
        ∃ (results : List QueryDoc) (qm : String) (md : Metadata),
          routeQuery c metadata registry_matches defects operations styles errors
            = Except.ok (results,
                methodIndex (selectMethod (!defects.isEmpty) (!operations.isEmpty)
                  (!styles.isEmpty) (!errors.isEmpty)),
                some qm, md)
          ∧ qm ∈ methodNames (selectMethod (!defects.isEmpty) (!operations.isEmpty)
              (!styles.isEmpty) (!errors.isEmpty)))
    ∧ (∀ (index : List Row) (defect : String) (operation_candidates : List String)
        (style : String) (r : Row),
        normalize_value (some style) = "" →
        r ∈ get_full_rows index defect operation_candidates style 50 →
        r.style = "")
    ∧ (∀ (c : ESClient) (metadata : Metadata)
        (registry_matches : List RegistryMatch),
        routeQuery c metadata registry_matches [] [] [] []
          = Except.ok ([], none, some "generic", metadata)) := by
  refine ⟨by decide, ?_, ?_, ?_⟩
  · intro c metadata rm defects operations styles errors hok
    unfold routeQuery
    cases hD : defects.isEmpty <;> cases hO : operations.isEmpty <;>
      cases hS : styles.isEmpty <;> cases hE : errors.isEmpty <;>
      simp only [hD, hO, hS, hE, Bool.not_true, Bool.not_false, Bool.and_true,
        Bool.and_false, Bool.true_and, Bool.false_and, Bool.or_true, Bool.or_false,
        Bool.true_or, Bool.false_or, if_true, if_false, ite_true, ite_false,
        Bool.false_eq_true, run_ok hok, except_bind_ok, selectMethod, methodIndex,
        methodNames] <;>
      repeat' split
    all_goals exact ⟨_, _, _, rfl, by simp⟩
  · intro index defect operation_candidates style r hstyle hmem
    simp only [get_full_rows, hstyle, ne_eq, not_true_eq_false, if_false,
      ite_false, reduceIte] at hmem
    have hmem2 : r ∈ index.filter (fun x =>
        x.defect == normalize_value (some defect) &&
        ((List.filterMap (fun op =>
            let n := normalize_value (some op)
            if n = "" then none else some n) operation_candidates).isEmpty ||
          (List.filterMap (fun op =>
            let n := normalize_value (some op)
            if n = "" then none else some n) operation_candidates).contains x.operation) &&
        (x.style == "")) := List.mem_of_mem_take hmem
    have hp := List.of_mem_filter hmem2
    simp only [Bool.and_eq_true, beq_iff_eq] at hp
    exact hp.2
  · intro c metadata rm
    rfl

/-- Witness for C1: on an empty client with only an error value present, the
routing reports the error-only method against the knowledge base; and a row
reached through a vanishing style value indeed stores the empty style. -/
theorem c1_witness :
    (∃ (results : List QueryDoc) (qm : String) (md : Metadata),
      routeQuery { fact := [], rel := [] } {} [] [] [] [] ["e1"]
        = Except.ok (results, some "ocap-knowledge-base", some qm, md)
      ∧ qm ∈ methodNames (selectMethod false false false true))
    ∧ ({ style := "", defect := "d1" } : Row).style = "" :=
  ⟨c1_routing_decision_table.2.1 { fact := [], rel := [] } {} [] [] [] [] ["e1"] rfl,
   c1_routing_decision_table.2.2.1 [{ style := "", defect := "d1" }] "d1" [] "nan"
     { style := "", defect := "d1" } (by decide) (by decide)⟩

/-- C2: when all four slot types are present and the 4-parameter query
returns zero rows, the routing re-runs the 3-parameter query against the same
index and locally filters its rows by normalized error equality; the final
result set is the filtered rows when any survive, and the unfiltered
3-parameter rows otherwise. -/
theorem c2_fourparam_fallback (c : ESClient) (metadata : Metadata)
    (registry_matches : List RegistryMatch)
    (defects operations styles errors : List String)
    (hok : c.searchFails = none)
    (hd : defects ≠ []) (ho : operations ≠ []) (hs : styles ≠ []) (he : errors ≠ [])
    (h4 : get_rows_with_error c.fact (defects.headD "") operations (styles.headD "")
      (errors.headD "") 50 = []) :
    routedResults (routeQuery c metadata registry_matches defects operations styles errors)
      = some ((if (get_full_rows c.fact (defects.headD "") operations
              (styles.headD "") 50).filter
              (fun row => normalize_value (some row.error)
                == normalize_value (some (errors.headD ""))) = []
          then get_full_rows c.fact (defects.headD "") operations (styles.headD "") 50
          else (get_full_rows c.fact (defects.headD "") operations
              (styles.headD "") 50).filter
              (fun row => normalize_value (some row.error)
                == normalize_value (some (errors.headD "")))).map QueryDoc.fact) := by
  unfold routeQuery
  simp only [isEmpty_false_of_ne_nil hd, isEmpty_false_of_ne_nil ho,
    isEmpty_false_of_ne_nil hs, isEmpty_false_of_ne_nil he, Bool.not_false,
    Bool.and_self, if_true, ite_true, run_ok hok, except_bind_ok, h4,
    List.length_nil, if_pos rfl]
  by_cases h3 : get_full_rows c.fact (defects.headD "") operations (styles.headD "") 50 = []
  · rw [if_neg (not_not_intro h3)]
    have hfil0 : (get_full_rows c.fact (defects.headD "") operations
        (styles.headD "") 50).filter (fun row => normalize_value (some row.error)
          == normalize_value (some (errors.headD ""))) = [] := by
      rw [h3]
      rfl
    rw [if_pos hfil0, h3]
    rfl
  · rw [if_pos h3]
    by_cases hfil : (get_full_rows c.fact (defects.headD "") operations
        (styles.headD "") 50).filter (fun row => normalize_value (some row.error)
          == normalize_value (some (errors.headD ""))) = []
    · rw [if_neg (not_not_intro hfil), if_pos hfil]
      rfl
    · rw [if_pos hfil, if_neg hfil]
      rfl

/-- Witness for C2: a store whose only row differs in error from the request
makes the 4-parameter query empty and the local filter empty, so the
unfiltered 3-parameter row is kept. -/
theorem c2_witness :
    routedResults (routeQuery
      { fact := [{ style := "s1", defect := "d1", operation := "o1",
                   error := "e2", action := "a1" }], rel := [] }
      {} [] ["d1"] ["o1"] ["s1"] ["e1"])
      = some [QueryDoc.fact { style := "s1", defect := "d1", operation := "o1",
                              error := "e2", action := "a1" }] :=
  (c2_fourparam_fallback
    { fact := [{ style := "s1", defect := "d1", operation := "o1",
                 error := "e2", action := "a1" }], rel := [] }
    {} [] ["d1"] ["o1"] ["s1"] ["e1"] rfl
    (by decide) (by decide) (by decide) (by decide) (by decide)).trans (by decide)

/-- C3: on the 4-parameter fallback path with an unhonorable error filter,
the routing step records the fallback in its working metadata, but the final
classify entry written by the node replaces it wholesale, so the metadata the
node returns carries no fallback record and reports fallback_used as
false. -/
theorem c3_fallback_record_overwritten :
    ((routedMetadata (routeQuery
        { fact := [{ style := "s1", defect := "d1", operation := "o1",
                     error := "e2", action := "a1" }], rel := [] }
        {} [] ["d1"] ["o1"] ["s1"] ["e1"])).bind (fun m => m.classify)).bind
      (fun entry => entry.fallback_info)
      = some { original_query := "get_rows_with_error (4 params)",
               fallback_query := "get_full_rows (3 params)",
               error_filter_applied := false,
               reason := "No rows matched error=e1 in 3-parameter results" }
    ∧ ((classify (Except.ok
        { fact := [{ style := "s1", defect := "d1", operation := "o1",
                     error := "e2", action := "a1" }], rel := [] })
        { query := "q", classification := some "precise",
          metadata := some { registry_matches := [
            { node_type := "defect", value := "d1", match_type := "exact", confidence := 100 },
            { node_type := "operation", value := "o1", match_type := "exact", confidence := 100 },
            { node_type := "style", value := "s1", match_type := "exact", confidence := 100 },
            { node_type := "error", value := "e1", match_type := "exact", confidence := 100 }] } }).bind
        (fun m => m.classify)).bind (fun entry => entry.fallback_info) = none
    ∧ ((classify (Except.ok
        { fact := [{ style := "s1", defect := "d1", operation := "o1",
                     error := "e2", action := "a1" }], rel := [] })
        { query := "q", classification := some "precise",
          metadata := some { registry_matches := [
            { node_type := "defect", value := "d1", match_type := "exact", confidence := 100 },
            { node_type := "operation", value := "o1", match_type := "exact", confidence := 100 },
            { node_type := "style", value := "s1", match_type := "exact", confidence := 100 },
            { node_type := "error", value := "e1", match_type := "exact", confidence := 100 }] } }).bind
        (fun m => m.classify)).map (fun entry => entry.fallback_used)
      = some (some false) := by
  exact ⟨by decide, by decide, by decide⟩

/-- C7 counterexample: when obtaining the search client raises, the classify
node returns the degraded error entry, whose response_strategy key is absent,
so no strategy classification (and no no_results report) takes place in the
returned state. -/
theorem c7_counterexample :
    classify (Except.error "connection refused")
        { query := "q", classification := some "precise" }
      = some { classify := some {
          classification := some "precise",
          error := some "connection refused",
          results_count := 0,
          results := [],
          formatted_text := "Error occurred while querying Elasticsearch: connection refused" } }
    ∧ ((classify (Except.error "connection refused")
        { query := "q", classification := some "precise" }).bind
        (fun m => m.classify)).bind (fun entry => entry.response_strategy) = none := by
  exact ⟨by decide, by decide⟩

/-- C7 amended: any failure raised inside the routing and retrieval is caught
at the node boundary; the node still returns a well-formed update whose
classify entry carries the error note, an empty result set and a zero results
count, but no response strategy is attached on this path. -/
theorem c7_retrieval_failure_degraded (clientRes : Except String ESClient)
    (state : OCAPState) (e : String)
    (hcl : ¬ (state.classification = none ∨ state.classification = some ""))
    (herr : runClassify clientRes (state.metadata.getD {})
      (effectiveRegistryMatches (state.metadata.getD {})) state.classification
      = Except.error e) :
    ∃ (m : Metadata) (entry : ClassifyEntry),
      classify clientRes state = some m
      ∧ m.classify = some entry
      ∧ entry.error = some e
      ∧ entry.results = []
      ∧ entry.results_count = 0
      ∧ entry.formatted_text = "Error occurred while querying Elasticsearch: " ++ e
      ∧ entry.response_strategy = none := by
  unfold classify
  rw [if_neg hcl, herr]
  exact ⟨_, _, rfl, rfl, rfl, rfl, rfl, rfl, rfl⟩

/-- Witness for the amended C7 at a failing client construction. -/
theorem c7_witness :
    ∃ (m : Metadata) (entry : ClassifyEntry),
      classify (Except.error "boom") { classification := some "precise" } = some m
      ∧ m.classify = some entry
      ∧ entry.error = some "boom"
      ∧ entry.results = []
      ∧ entry.results_count = 0
      ∧ entry.formatted_text = "Error occurred while querying Elasticsearch: " ++ "boom"
      ∧ entry.response_strategy = none :=
  c7_retrieval_failure_degraded (Except.error "boom")
    { classification := some "precise" } "boom" (by decide) rfl

/-- Taking one hundred elements of a list whose tail part was already capped
at one hundred is the same as capping the whole concatenation. -/
theorem take_append_take_hundred {α : Type} (xs ys : List α) :
    (xs ++ ys.take 100).take 100 = (xs ++ ys).take 100 := by
  rw [List.take_append_eq_append_take, List.take_append_eq_append_take,
    List.take_take]
  congr 1
  rw [Nat.min_eq_left (Nat.sub_le 100 xs.length)]

/-- Folding the workflow-store writer keeps the one hundred most recent
pushes, most recent first. -/
theorem foldl_storeWorkflow (pushes : List String) :
    ∀ acc : List String, acc.length ≤ 100 →
      pushes.foldl storeWorkflow acc = (pushes.reverse ++ acc).take 100 := by
  induction pushes with
  | nil =>
    intro acc h
    simp [List.take_of_length_le h]
  | cons p ps ih =>
    intro acc h
    rw [List.foldl_cons,
      ih (storeWorkflow acc p) (by simpa [storeWorkflow] using List.length_take_le 100 _)]
    show (ps.reverse ++ ((p :: acc).take 100)).take 100 = ((p :: ps).reverse ++ acc).take 100
    rw [take_append_take_hundred]
    simp [List.append_assoc]

/-- One retrieval-loop step adds at most one interaction. -/
theorem collectStep_fst_length_le (blobs : List (String × Blob))
    (acc : List Interaction × List HistEntry) (workflow_run_id : String) :
    ((collectStep blobs acc workflow_run_id).1).length ≤ acc.1.length + 1 := by
  unfold collectStep
  split
  · exact Nat.le_succ _
  · exact Nat.le_succ _
  · exact Nat.le_succ _
  · simp only []
    split
    · simp
    · simp

/-- The retrieval loop of the memory consolidator yields at most as many
interactions as there are stored identifiers. -/
theorem collectInteractions_length_le (blobs : List (String × Blob)) :
    ∀ (workflow_run_ids : List String) (acc : List Interaction × List HistEntry),
      ((workflow_run_ids.foldl (collectStep blobs) acc).1).length
        ≤ acc.1.length + workflow_run_ids.length := by
  intro ids
  induction ids with
  | nil => intro acc; simp
  | cons i t ih =>
    intro acc
    rw [List.foldl_cons]
    calc ((t.foldl (collectStep blobs) (collectStep blobs acc i)).1).length
        ≤ (collectStep blobs acc i).1.length + t.length := ih _
      _ ≤ (acc.1.length + 1) + t.length :=
          Nat.add_le_add_right (collectStep_fst_length_le blobs acc i) _
      _ = acc.1.length + (i :: t).length := by simp [Nat.add_comm, Nat.add_assoc,
          Nat.add_left_comm]

/-- C8: the per-thread workflow store reachable by the writer holds the one
hundred most recent turn identifiers, most recent first, and the memory
consolidator, which processes exactly the stored list in storage order,
therefore processes at most one hundred prior turns, as its reported workflow
count shows. -/
theorem c8_memory_bounded_most_recent_first (pushes : List String) :
    pushes.foldl storeWorkflow [] = pushes.reverse.take 100
    ∧ (pushes.foldl storeWorkflow []).length ≤ 100
    ∧ ∀ (blobs : List (String × Blob)) (llm : Except String String)
        (queryHash : Nat) (state : OCAPState),
        ((summarize_thread_memory
            (Redis.available (pushes.foldl storeWorkflow []) blobs)
            llm queryHash state).getD {}).workflow_count.getD 0 ≤ 100 := by
  have hstore : pushes.foldl storeWorkflow [] = pushes.reverse.take 100 := by
    simpa using foldl_storeWorkflow pushes [] (by simp)
  have hlen : (pushes.foldl storeWorkflow []).length ≤ 100 := by
    rw [hstore]
    exact List.length_take_le 100 _
  refine ⟨hstore, hlen, ?_⟩
  intro blobs llm queryHash state
  have hcoll : ((collectInteractions (pushes.foldl storeWorkflow []) blobs).1).length ≤ 100 := by
    calc ((collectInteractions (pushes.foldl storeWorkflow []) blobs).1).length
        ≤ ([] : List Interaction).length + (pushes.foldl storeWorkflow []).length :=
          collectInteractions_length_le blobs _ _
      _ ≤ 100 := by simpa using hlen
  simp only [summarize_thread_memory]
  split_ifs with h1 h2
  · simp
  · simp
  · cases llm with
    | ok s => simpa using hcoll
    | error s => simpa using hcoll

/-- C9 counterexample: when the memory store is unavailable, the consolidator
reports memory unavailable but leaves the historical registry-match key
absent rather than setting it to the empty list. -/
theorem c9_counterexample :
    ∃ m : Metadata, summarize_thread_memory Redis.unavailable (Except.ok "s") 0 {} = some m
      ∧ m.thread_memory_available = some false
      ∧ m.historical_registry_matches = none
      ∧ ¬ m.historical_registry_matches = some [] := by
  exact ⟨_, rfl, rfl, rfl, by decide⟩

/-- C9 amended: on every no-memory path the consolidator returns a well-typed
state with the memory-available flag false and the summary absent, without
raising; the zero-turns and list-read-failure paths set the historical
registry-match list empty (the failure path additionally records the error
string), while the detected-unavailable path leaves the historical key as it
was in the incoming metadata. -/
theorem c9_no_memory_state (llm : Except String String) (queryHash : Nat)
    (state : OCAPState) :
    (summarize_thread_memory Redis.unavailable llm queryHash state
      = some { state.metadata.getD {} with
          thread_memory_summary := none, thread_memory_available := some false })
    ∧ (∀ e, summarize_thread_memory (Redis.listFails e) llm queryHash state
      = some { state.metadata.getD {} with
          thread_memory_summary := none, thread_memory_available := some false,
          thread_memory_error := some e, historical_registry_matches := some [] })
    ∧ (∀ blobs, summarize_thread_memory (Redis.available [] blobs) llm queryHash state
      = some { state.metadata.getD {} with
          thread_memory_summary := none, thread_memory_available := some false,
          workflow_count := some 0, historical_registry_matches := some [] }) :=
  ⟨rfl, fun _ => rfl, fun _ => rfl⟩

end OCAP
